import Mathlib

/-!
Verification of the node-rest-generate scaffolding engine.

The definitions below are a shallow embedding of the generator's core
(`src/commands/create.ts`, `src/utils/generator.ts`, `src/types/project.ts`):
the option data model, the dependency resolver (`getDependencies`,
`getDevDependencies`), the file-content synthesizer (`generateEnvFile`,
`generatePackageJson`, `generateIndexFile`, `generateBasicFiles`,
`copyTemplateFiles`) and the orchestrator's produced directory/file sets
(`generateProjectStructure`, `generateProject`).  JavaScript objects used as
string-keyed records are modelled as association lists with JS assignment
semantics (`recordSet`); file writes are modelled as (relative path, content)
pairs.  All literal string content is transcribed verbatim from the source
(braces, quotes and backticks appear via hexadecimal escapes).
-/

namespace RestGenerate

/-- Framework options supported by the generator (`types/project.ts`). -/
inductive Framework where
  | express
deriving DecidableEq

/-- Database options supported by the generator (`types/project.ts`). -/
inductive Database where
  | mongodb
  | none
deriving DecidableEq

/-- ORM options supported by the generator (`types/project.ts`). -/
inductive ORM where
  | mongoose
  | none
deriving DecidableEq

/-- TypeScript or JavaScript option (`types/project.ts`). -/
inductive Language where
  | typescript
  | javascript
deriving DecidableEq

/-- Validation library options (`types/project.ts`). -/
inductive ValidationLibrary where
  | joi
  | zod
deriving DecidableEq

/-- Authentication strategy options (`types/project.ts`). -/
inductive AuthStrategy where
  | jwt
  | session
  | oauth
deriving DecidableEq

/-- Feature options that can be added to a project (`types/project.ts`). -/
inductive Feature where
  | auth
  | validation
  | swagger
  | docker
  | tests
deriving DecidableEq

/-- Configuration options for project generation (`ProjectOptions` in
`types/project.ts`). -/
structure ProjectOptions where
  name : String
  language : Language
  framework : Framework
  database : Database
  orm : ORM
  features : List Feature
  validationLibrary : Option ValidationLibrary
  authStrategy : Option AuthStrategy
deriving DecidableEq

/-- String value of a `Framework` (in the source the enum values are the
strings themselves). -/
def Framework.str : Framework → String
  | .express => "express"

/-- String value of a `Database`. -/
def Database.str : Database → String
  | .mongodb => "mongodb"
  | .none => "none"

/-- Type guard `isDatabaseMongoDB` (`generator.ts`). -/
def isDatabaseMongoDB (database : Database) : Bool :=
  database = Database.mongodb

/-- Type guard `isORMMongoose` (`generator.ts`). -/
def isORMMongoose (orm : ORM) : Bool :=
  orm = ORM.mongoose

/-- Type guard `isFrameworkExpress` (`generator.ts`). -/
def isFrameworkExpress (framework : Framework) : Bool :=
  framework = Framework.express

/-- Type guard `isDatabaseNone` (`generator.ts`). -/
def isDatabaseNone (database : Database) : Bool :=
  database = Database.none

/-- Type guard `isORMNone` (`generator.ts`). -/
def isORMNone (orm : ORM) : Bool :=
  orm = ORM.none

/-- Modelled from the spec: the consistency predicate `isConsistent` of §4.1,
implementing the invariants of §3 (no such function exists in the source;
the source relies on the prompt flow to enforce these).  The invariants:
`validationLibrary` present iff `validation` selected, `authStrategy`
present iff `auth` selected, `database`/`orm` compatible (in the closed
option set `mongodb` pairs exactly with `mongoose`, `none` with `none`),
and `name` non-empty without path separators. -/
def isConsistent (c : ProjectOptions) : Prop :=
  c.name ≠ "" ∧
  c.name.data.contains '/' = false ∧
  (c.validationLibrary.isSome ↔ c.features.contains Feature.validation = true) ∧
  (c.authStrategy.isSome ↔ c.features.contains Feature.auth = true) ∧
  (c.database = Database.mongodb ↔ c.orm = ORM.mongoose)

instance (c : ProjectOptions) : Decidable (isConsistent c) := by
  unfold isConsistent
  infer_instance

/-- JavaScript object property assignment `r[k] = v` on a string-keyed
record modelled as an association list: an existing key keeps its position
and gets the new value, a fresh key is appended. -/
def recordSet (r : List (String × String)) (k v : String) :
    List (String × String) :=
  if r.any (fun p => p.1 = k) then
    r.map (fun p => if p.1 = k then (k, v) else p)
  else
    r ++ [(k, v)]

/-- Sequence of JavaScript property assignments, in order. -/
def setAll (r : List (String × String)) (kvs : List (String × String)) :
    List (String × String) :=
  kvs.foldl (fun acc kv => recordSet acc kv.1 kv.2) r

/-- Whether the record has an entry for key `k`. -/
def hasKey (r : List (String × String)) (k : String) : Bool :=
  r.any (fun p => p.1 = k)

/-- `getDependencies` (`generator.ts` lines 335-437): runtime dependency
manifest derived from the options.  Each `setAll` group mirrors one
assignment block of the source, in source order. -/
def getDependencies (options : ProjectOptions) : List (String × String) :=
  let dependencies : List (String × String) :=
    [("@types/node", "latest"), ("dotenv", "latest")]
  -- Framework dependencies
  let dependencies :=
    match options.framework with
    | Framework.express =>
        setAll dependencies
          [("express", "latest"), ("cors", "latest"),
           ("helmet", "latest"), ("morgan", "latest")]
  -- Database dependencies
  let dependencies :=
    if isDatabaseMongoDB options.database then
      recordSet dependencies "mongodb" "latest"
    else dependencies
  -- ORM dependencies
  let dependencies :=
    if isORMMongoose options.orm then
      recordSet dependencies "mongoose" "latest"
    else dependencies
  -- Authentication dependencies
  let dependencies :=
    if options.features.contains Feature.auth then
      let dependencies :=
        setAll dependencies
          [("passport", "latest"), ("express-session", "latest")]
      let dependencies :=
        if options.authStrategy = some AuthStrategy.jwt then
          setAll dependencies
            [("passport-jwt", "latest"), ("jsonwebtoken", "latest")]
        else if options.authStrategy = some AuthStrategy.session then
          setAll dependencies
            [("connect-mongo", "latest"), ("express-session", "latest"),
             ("passport-local", "latest")]
        else if options.authStrategy = some AuthStrategy.oauth then
          setAll dependencies
            [("passport-google-oauth20", "latest"),
             ("passport-github2", "latest")]
        else dependencies
      recordSet dependencies "bcrypt" "latest"
    else dependencies
  -- Validation dependencies
  let dependencies :=
    if options.features.contains Feature.validation then
      if options.validationLibrary = some ValidationLibrary.joi then
        recordSet dependencies "joi" "latest"
      else if options.validationLibrary = some ValidationLibrary.zod then
        recordSet dependencies "zod" "latest"
      else dependencies
    else dependencies
  -- Swagger dependencies
  let dependencies :=
    if options.features.contains Feature.swagger then
      setAll dependencies
        [("swagger-ui-express", "latest"), ("swagger-jsdoc", "latest")]
    else dependencies
  dependencies

/-- `getDevDependencies` (`generator.ts` lines 442-511): development
dependency manifest derived from the options.  The `orm = mongoose` branch
of the source adds nothing, so it contributes no assignments here. -/
def getDevDependencies (options : ProjectOptions) : List (String × String) :=
  let devDependencies : List (String × String) := []
  -- TypeScript
  let devDependencies :=
    if options.language = Language.typescript then
      setAll devDependencies
        [("typescript", "^5.2.2"), ("@types/node", "^20.6.3"),
         ("ts-node", "^10.9.1"), ("nodemon", "^3.0.1"),
         ("tsconfig-paths", "^4.2.0"), ("rimraf", "^5.0.1")]
    else
      -- JavaScript with ES modules support
      setAll devDependencies [("nodemon", "^3.0.1")]
  -- Linting and formatting
  let devDependencies :=
    if options.language = Language.typescript then
      setAll devDependencies
        [("eslint", "^8.49.0"),
         ("@typescript-eslint/eslint-plugin", "^6.7.2"),
         ("@typescript-eslint/parser", "^6.7.2"), ("prettier", "^3.0.3")]
    else
      setAll devDependencies [("eslint", "^8.49.0"), ("prettier", "^3.0.3")]
  -- Testing
  let devDependencies :=
    if options.features.contains Feature.tests then
      let devDependencies := recordSet devDependencies "jest" "^29.7.0"
      let devDependencies :=
        if options.language = Language.typescript then
          setAll devDependencies
            [("ts-jest", "^29.1.1"), ("@types/jest", "^29.5.5")]
        else devDependencies
      let devDependencies :=
        if isFrameworkExpress options.framework then
          let devDependencies :=
            recordSet devDependencies "supertest" "^6.3.3"
          if options.language = Language.typescript then
            recordSet devDependencies "@types/supertest" "^2.0.12"
          else devDependencies
        else devDependencies
      devDependencies
    else devDependencies
  devDependencies

/-- The `scripts` object of the generated `package.json`
(`generatePackageJson`, `generator.ts` lines 311-322). -/
structure Scripts where
  start : String
  dev : String
  build : String
  test : String
deriving DecidableEq

/-- The generated `package.json` object (`generatePackageJson`,
`generator.ts` lines 305-325). -/
structure PackageJson where
  name : String
  version : String
  description : String
  type : String
  main : String
  scripts : Scripts
  dependencies : List (String × String)
  devDependencies : List (String × String)
deriving DecidableEq

/-- `generatePackageJson` (`generator.ts` lines 297-330): the package.json
object that is serialized to disk. -/
def generatePackageJson (options : ProjectOptions) : PackageJson :=
  let isTypeScript : Bool := options.language = Language.typescript
  let mainFile := if isTypeScript then "dist/index.js" else "src/index.js"
  let srcExt := if isTypeScript then "ts" else "js"
  { name := options.name
    version := "1.0.0"
    description := "A Node.js REST API"
    type := "module"
    main := mainFile
    scripts :=
      { start := "node " ++ mainFile
        dev :=
          if isTypeScript then
            "ts-node-dev --respawn --transpile-only src/index." ++ srcExt
          else
            "nodemon src/index." ++ srcExt
        build :=
          if isTypeScript then "tsc"
          else "echo \"No build step needed for JavaScript\""
        test :=
          if options.features.contains Feature.tests then "jest"
          else "echo \"No tests configured\"" }
    dependencies := getDependencies options
    devDependencies := getDevDependencies options }

/-- `generateEnvFile` (`generator.ts` lines 516-601): the lines of the
generated `.env` / `.env.example` file (both files receive the same
content, joined with newlines).  Each `++` group mirrors one `push`
sequence of the source, in source order. -/
def generateEnvFile (options : ProjectOptions) : List String :=
  let envContent : List String :=
    ["# Server Configuration", "PORT=3000", "NODE_ENV=development", ""]
  -- Database connection
  let envContent :=
    if options.database ≠ Database.none then
      let envContent := envContent ++ ["# Database Configuration"]
      let envContent :=
        match options.database with
        | Database.mongodb =>
            envContent ++
              ["MONGODB_URI=mongodb://localhost:27017/" ++ options.name]
        | Database.none => envContent
      envContent ++ [""]
    else envContent
  -- Authentication
  let envContent :=
    if options.features.contains Feature.auth then
      let envContent :=
        envContent ++
          ["# Authentication", "JWT_SECRET=your-secret-key",
           "JWT_EXPIRES_IN=1d"]
      let envContent :=
        if options.authStrategy = some AuthStrategy.session ∨
            options.authStrategy = some AuthStrategy.oauth then
          envContent ++ ["SESSION_SECRET=your-session-secret"]
        else envContent
      let envContent :=
        if options.authStrategy = some AuthStrategy.oauth then
          envContent ++
            ["# OAuth Configuration",
             "GOOGLE_CLIENT_ID=your-google-client-id",
             "GOOGLE_CLIENT_SECRET=your-google-client-secret",
             "GITHUB_CLIENT_ID=your-github-client-id",
             "GITHUB_CLIENT_SECRET=your-github-client-secret"]
        else envContent
      envContent ++ [""]
    else envContent
  envContent

/-- Interpretation of one environment-file line: the variable it defines,
if any.  A line defines a variable when it is non-empty, is not a `#`
comment, and contains `=`; the variable name is everything before the
first `=`. -/
def lineVar (line : String) : Option String :=
  let cs := line.data
  match cs with
  | [] => Option.none
  | c :: _ =>
    if c = '#' then Option.none
    else if cs.any (fun ch => ch = '=') then
      some (String.mk (cs.takeWhile (fun ch => ch ≠ '=')))
    else Option.none

/-- The variables defined by an environment file, in order of appearance. -/
def definedVars (lines : List String) : List String :=
  lines.filterMap lineVar

/-- Stated from the spec's words (§6, claim C3): the exact list of
environment variables the spec says are emitted for a configuration. -/
def claimedEnvVars (c : ProjectOptions) : List String :=
  ["PORT", "NODE_ENV"]
  ++ (if c.database = Database.mongodb then ["MONGODB_URI"] else [])
  ++ (if c.features.contains Feature.auth then
        ["JWT_SECRET", "JWT_EXPIRES_IN"]
      else [])
  ++ (if c.authStrategy = some AuthStrategy.session ∨
          c.authStrategy = some AuthStrategy.oauth then
        ["SESSION_SECRET"]
      else [])
  ++ (if c.authStrategy = some AuthStrategy.oauth then
        ["GOOGLE_CLIENT_ID", "GOOGLE_CLIENT_SECRET",
         "GITHUB_CLIENT_ID", "GITHUB_CLIENT_SECRET"]
      else [])

/-- `generateProjectStructure` (`generator.ts` lines 255-292): the list of
directories (relative to the project directory) the orchestrator creates. -/
def generateProjectStructure (options : ProjectOptions) : List String :=
  let dirs :=
    ["src", "src/controllers", "src/routes", "src/middleware",
     "src/utils", "src/config"]
  -- Add database-specific directories
  let dirs :=
    if options.database ≠ Database.none then
      let dirs := dirs ++ ["src/models"]
      if options.orm ≠ ORM.none then
        dirs ++
          ["src/" ++ (if options.orm = ORM.mongoose then "schemas" else "models")]
      else dirs
    else dirs
  -- Add feature-specific directories
  let dirs :=
    if options.features.contains Feature.auth then dirs ++ ["src/auth"]
    else dirs
  let dirs :=
    if options.features.contains Feature.tests then
      dirs ++ ["tests", "tests/unit", "tests/integration"]
    else dirs
  dirs

/-- Fixed leading import lines of the entry-point template
(`generateIndexFile`, `generator.ts` lines 711-715). -/
def indexImportsHeader : String :=
  "import express from \x27express\x27;\nimport cors from \x27cors\x27;\nimport helmet from \x27helmet\x27;\nimport morgan from \x27morgan\x27;\nimport \x27dotenv/config\x27;\n"

/-- Conditional mongoose import of the entry-point template (line 716). -/
def indexMongooseImport (options : ProjectOptions) : String :=
  if options.database = Database.mongodb then
    "import mongoose from \x27mongoose\x27;"
  else ""

/-- Conditional passport import of the entry-point template (line 717). -/
def indexPassportImport (options : ProjectOptions) : String :=
  if options.features.contains Feature.auth then
    "import passport from \x27passport\x27;"
  else ""

/-- Conditional express-session import of the entry-point template
(lines 718-722). -/
def indexSessionImport (options : ProjectOptions) : String :=
  if options.features.contains Feature.auth = true ∧
      options.authStrategy = some AuthStrategy.session then
    "import session from \x27express-session\x27;"
  else ""

/-- Conditional connect-mongo import of the entry-point template
(lines 723-729). -/
def indexMongoStoreImport (options : ProjectOptions) : String :=
  if options.features.contains Feature.auth = true ∧
      options.authStrategy = some AuthStrategy.session ∧
      options.database = Database.mongodb then
    "import MongoStore from \x27connect-mongo\x27;"
  else ""

/-- Fixed app/port setup region of the entry-point template
(lines 730-734). -/
def indexAppSetup : String :=
  "\n\nconst app = express();\nconst port = process.env.PORT || 3000;\n\n// Connect to MongoDB\n"

/-- Conditional MongoDB connection block of the entry-point template
(lines 735-743), with the hardcoded fallback connection string
interpolating the project name. -/
def indexMongoConnect (options : ProjectOptions) : String :=
  if options.database = Database.mongodb then
    "\n"
    ++ ("mongoose.connect(process.env.MONGODB_URI || \x27"
        ++ ("mongodb://localhost:27017/" ++ options.name) ++ "\x27)")
    ++ "\n  .then(() => console.log(\x27Connected to MongoDB\x27))\n  .catch(err => console.error(\x27MongoDB connection error:\x27, err));\n"
  else ""

/-- Fixed middleware region of the entry-point template (lines 745-750). -/
def indexMiddleware : String :=
  "\n\n// Middleware\napp.use(cors());\napp.use(helmet());\napp.use(morgan(\x27dev\x27));\napp.use(express.json());\n\n"

/-- Session/passport initialization region of the entry-point template
(lines 751-782), keyed by authStrategy with the session store keyed by
database. -/
def indexAuthBlock (options : ProjectOptions) : String :=
  if options.features.contains Feature.auth = true ∧
      options.authStrategy = some AuthStrategy.session then
    "\n// Session configuration\napp.use(session(\x7b\n  secret: process.env.SESSION_SECRET || \x27your-secret-key\x27,\n  resave: false,\n  saveUninitialized: false,\n  "
    ++ (if options.database = Database.mongodb then
          "\n  store: MongoStore.create(\x7b\n    mongoUrl: process.env.MONGODB_URI || \x27mongodb://localhost:27017/"
          ++ options.name ++ "\x27\n  \x7d),"
        else "")
    ++ "\n  cookie: \x7b\n    maxAge: 1000 * 60 * 60 * 24 // 1 day\n  \x7d\n\x7d));\n\n// Initialize Passport\napp.use(passport.initialize());\napp.use(passport.session());\n"
  else if options.features.contains Feature.auth then
    "\n// Initialize Passport\napp.use(passport.initialize());\n"
  else ""

/-- Conditional swagger region of the entry-point template
(lines 784-813); `fileExtension` is passed in by the caller. -/
def indexSwaggerBlock (options : ProjectOptions) (fileExtension : String) :
    String :=
  if options.features.contains Feature.swagger then
    "\n// Swagger documentation\nimport swaggerJSDoc from \x27swagger-jsdoc\x27;\nimport swaggerUi from \x27swagger-ui-express\x27;\n\nconst swaggerOptions = \x7b\n  definition: \x7b\n    openapi: \x273.0.0\x27,\n    info: \x7b\n      title: \x27"
    ++ options.name
    ++ " API\x27,\n      version: \x271.0.0\x27,\n      description: \x27API documentation for "
    ++ options.name
    ++ "\x27,\n    \x7d,\n    servers: [\n      \x7b\n        url: \x27http://localhost:\x27 + port,\n        description: \x27Development server\x27,\n      \x7d,\n    ],\n  \x7d,\n  apis: [\x27./src/routes/*."
    ++ fileExtension
    ++ "\x27],\n\x7d;\n\nconst swaggerSpec = swaggerJSDoc(swaggerOptions);\napp.use(\x27/api-docs\x27, swaggerUi.serve, swaggerUi.setup(swaggerSpec));\n"
  else ""

/-- Fixed trailing region of the entry-point template (lines 815-824):
placeholder route (with the language-keyed `typeDefs` annotation and the
project name) and the server-start call. -/
def indexRoutesAndListen (options : ProjectOptions) (typeDefs : String) :
    String :=
  "\n\n// Routes\napp.get(\x27/\x27, (req, res"
  ++ typeDefs
  ++ ") => \x7b\n  res.json(\x7b message: \x27Welcome to "
  ++ options.name
  ++ " API\x27 \x7d);\n\x7d);\n\n// Start server\napp.listen(port, () => \x7b\n  console.log(\x60Server running on port $\x7bport\x7d\x60);\n\x7d);\n"

/-- `generateIndexFile` (`generator.ts` lines 703-830): relative path and
content of the generated entry-point source file.  The content is the
source's template literal, assembled from the named regions above in
template order, with each `$\x7b...\x7d` interpolation rendered as a
conditional/append; quotes, braces and backticks of the generated
JavaScript appear as hexadecimal escapes. -/
def generateIndexFile (options : ProjectOptions) : String × String :=
  let isTypeScript : Bool := options.language = Language.typescript
  let fileExtension := if isTypeScript then ".ts" else ".js"
  let typeDefs := if isTypeScript then ": any" else ""
  let indexContent :=
    indexImportsHeader
    ++ indexMongooseImport options
    ++ "\n"
    ++ indexPassportImport options
    ++ "\n"
    ++ indexSessionImport options
    ++ "\n"
    ++ indexMongoStoreImport options
    ++ indexAppSetup
    ++ indexMongoConnect options
    ++ indexMiddleware
    ++ indexAuthBlock options
    ++ "\n\n"
    ++ indexSwaggerBlock options fileExtension
    ++ indexRoutesAndListen options typeDefs
  ("src/index" ++ fileExtension, indexContent)

/-- `generateBasicFiles` (`generator.ts` lines 835-992): the controller,
route and (when a database is selected) model stub writes, as
(relative path, content) pairs in write order. -/
def generateBasicFiles (options : ProjectOptions) : List (String × String) :=
  -- Create a basic controller
  let controllerContent :=
    "/**\n * Example controller\n */\nexport const getHello = async (req, res) => \x7b\n  return res.json(\x7b message: \x27Hello World!\x27 \x7d);\n\x7d;\n\nexport const createItem = async (req, res) => \x7b\n  const item = req.body;\n  // Implementation would depend on the database and ORM\n  return res.status(201).json(\x7b message: \x27Item created\x27, item \x7d);\n\x7d;\n"
  -- Create a basic route file
  let routeContent :=
    if isFrameworkExpress options.framework then
      "import \x7b Router \x7d from \x27express\x27;\nimport \x7b getHello, createItem \x7d from \x27../controllers/example.controller.js\x27;\n\nconst router = Router();\n\nrouter.get(\x27/hello\x27, getHello);\nrouter.post(\x27/items\x27, createItem);\n\nexport default router;\n"
    else ""
  let files :=
    [("src/controllers/example.controller.ts", controllerContent),
     ("src/routes/example.routes.ts", routeContent)]
  -- Create a basic model if a database is selected
  if ! isDatabaseNone options.database then
    let modelContent :=
      if isORMMongoose options.orm then
        "import mongoose from \x27mongoose\x27;\n\nconst exampleSchema = new mongoose.Schema(\x7b\n  name: \x7b\n    type: String,\n    required: true\n  \x7d,\n  description: \x7b\n    type: String\n  \x7d,\n  createdAt: \x7b\n    type: Date,\n    default: Date.now\n  \x7d\n\x7d);\n\nexport const Example = mongoose.model(\x27Example\x27, exampleSchema);\n"
      else
        "// Example model file\n// Implementation depends on your ORM and database choice\n\nexport interface Example \x7b\n  id?: number;\n  name: string;\n  description?: string;\n  createdAt?: Date;\n\x7d\n\n// Example repository functions\nexport const findAll = async () => \x7b\n  // Implementation depends on your database and ORM choice\n  return [];\n\x7d;\n\nexport const findById = async (id: number) => \x7b\n  // Implementation depends on your database and ORM choice\n  return null;\n\x7d;\n\nexport const create = async (data: Omit<Example, \x27id\x27 | \x27createdAt\x27>) => \x7b\n  // Implementation depends on your database and ORM choice\n  return \x7b ...data, id: 1, createdAt: new Date() \x7d;\n\x7d;\n"
    files ++ [("src/models/example.model.ts", modelContent)]
  else files

/-- The `README.md` content synthesized by `copyTemplateFiles`
(`generator.ts` lines 639-689). -/
def readmeContent (options : ProjectOptions) : String :=
  "# " ++ options.name
  ++ "\n\nA Node.js REST API project built with " ++ options.framework.str
  ++ (if options.database ≠ Database.none then
        " and " ++ options.database.str
      else "")
  ++ ".\n\n## Getting Started\n\n### Prerequisites\n\n- Node.js (v16 or higher)\n- npm or yarn\n"
  ++ (if options.database ≠ Database.none then
        "- " ++ options.database.str ++ " database"
      else "")
  ++ "\n\n### Installation\n\n1. Clone the repository\n2. Install dependencies\n\n\x60\x60\x60bash\nnpm install\n\x60\x60\x60\n\n3. Set up environment variables\n   - Copy \x60.env.example\x60 to \x60.env\x60 and update the values\n\n4. Start the development server\n\n\x60\x60\x60bash\nnpm run dev\n\x60\x60\x60\n\n## Scripts\n\n- \x60npm run dev\x60: Start development server\n- \x60npm run build\x60: Build for production\n- \x60npm start\x60: Start production server\n"
  ++ (if options.features.contains Feature.tests then
        "- \x60npm test\x60: Run tests"
      else "")
  ++ "\n\n## Project Structure\n\n\x60\x60\x60\nsrc/\n├── controllers/    # Request handlers\n├── routes/         # API routes\n├── middleware/     # Express/Fastify/Koa middleware\n├── models/         # Data models\n├── config/         # Configuration files\n└── utils/          # Utility functions\n\x60\x60\x60\n"

/-- Compiler options of the tsconfig object written by `copyTemplateFiles`
(`generator.ts` lines 619-634). -/
structure TsconfigCompilerOptions where
  target : String
  module : String
  moduleResolution : String
  esModuleInterop : Bool
  strict : Bool
  outDir : String
  rootDir : String
  resolveJsonModule : Bool
  skipLibCheck : Bool
  forceConsistentCasingInFileNames : Bool
deriving DecidableEq

/-- The tsconfig object written by `copyTemplateFiles`; the `include` and
`exclude` JSON keys are named `includeGlobs`/`excludeGlobs` here because
`include` is reserved in Lean. -/
structure Tsconfig where
  compilerOptions : TsconfigCompilerOptions
  includeGlobs : List String
  excludeGlobs : List String
deriving DecidableEq

/-- The fixed tsconfig value (`generator.ts` lines 619-634). -/
def tsconfig : Tsconfig :=
  { compilerOptions :=
      { target := "ES2020"
        module := "NodeNext"
        moduleResolution := "NodeNext"
        esModuleInterop := true
        strict := true
        outDir := "./dist"
        rootDir := "./src"
        resolveJsonModule := true
        skipLibCheck := true
        forceConsistentCasingInFileNames := true }
    includeGlobs := ["src/**/*"]
    excludeGlobs := ["node_modules", "**/*.test.ts", "dist"] }

/-- Content of a generated file: plain text, or a JSON-serialized object
(`fs.writeJSON` in the source). -/
inductive FileContent where
  | text (s : String)
  | jsonTsconfig (t : Tsconfig)
  | jsonPackage (p : PackageJson)
deriving DecidableEq

/-- `copyTemplateFiles` (`generator.ts` lines 606-698): the files this step
writes, in write order — the tsconfig (written unconditionally), the
README, the entry point and the basic stubs. -/
def copyTemplateFiles (options : ProjectOptions) :
    List (String × FileContent) :=
  [("tsconfig.json", FileContent.jsonTsconfig tsconfig),
   ("README.md", FileContent.text (readmeContent options)),
   ((generateIndexFile options).1,
    FileContent.text (generateIndexFile options).2)]
  ++ (generateBasicFiles options).map (fun f => (f.1, FileContent.text f.2))

/-- `generateProject` (`generator.ts` lines 228-250): the directories the
orchestrator creates and the files it writes, in orchestration order
(structure, package.json, env files and gitignore, template files). -/
def generateProject (options : ProjectOptions) :
    List String × List (String × FileContent) :=
  (generateProjectStructure options,
   [("package.json", FileContent.jsonPackage (generatePackageJson options)),
    (".env.example",
     FileContent.text (String.intercalate "\n" (generateEnvFile options))),
    (".env",
     FileContent.text (String.intercalate "\n" (generateEnvFile options))),
    (".gitignore", FileContent.text "node_modules\ndist\n.env\n")]
   ++ copyTemplateFiles options)

/-! ## Helper lemmas -/

theorem hasKey_recordSet (r : List (String × String)) (k v k' : String) :
    hasKey (recordSet r k v) k' = (hasKey r k' || decide (k = k')) := by
  by_cases hkk : k = k'
  · subst hkk
    unfold hasKey recordSet
    split
    · rename_i h
      simp only [List.any_map, decide_True, Bool.or_true]
      simp only [List.any_eq_true, decide_eq_true_eq] at h ⊢
      obtain ⟨p, hp, hpk⟩ := h
      exact ⟨p, hp, by simp [Function.comp, hpk]⟩
    · simp
  · unfold hasKey recordSet
    split
    · simp only [List.any_map, decide_eq_false hkk, Bool.or_false]
      congr 1
      funext p
      by_cases hp : p.1 = k
      · simp [Function.comp, hp, hkk]
      · simp [Function.comp, hp]
    · simp [decide_eq_false hkk]

theorem hasKey_setAll (r : List (String × String))
    (kvs : List (String × String)) (k' : String) :
    hasKey (setAll r kvs) k' =
      (hasKey r k' || kvs.any (fun kv => decide (kv.1 = k'))) := by
  induction kvs generalizing r with
  | nil => simp [setAll]
  | cons kv t ih =>
    simp only [setAll, List.foldl_cons, List.any_cons]
    rw [show List.foldl (fun acc p => recordSet acc p.1 p.2) (recordSet r kv.1 kv.2) t = setAll (recordSet r kv.1 kv.2) t from rfl]
    rw [ih, hasKey_recordSet, Bool.or_assoc]

theorem ne_nil_of_hasKey (r : List (String × String)) (k : String)
    (h : hasKey r k = true) : r ≠ [] := by
  intro hnil
  subst hnil
  simp [hasKey] at h

theorem hasKey_nil (k : String) : hasKey [] k = false := rfl

theorem hasKey_cons (p : String × String) (r : List (String × String))
    (k : String) : hasKey (p :: r) k = (decide (p.1 = k) || hasKey r k) := by
  simp [hasKey]

theorem hasKey_getDependencies_dotenv (c : ProjectOptions) :
    hasKey (getDependencies c) "dotenv" = true := by
  obtain ⟨name, lang, fw, db, orm, feats, vlib, astrat⟩ := c
  cases fw
  simp only [getDependencies]
  simp [hasKey_recordSet, hasKey_setAll, hasKey_cons, hasKey_nil,
    apply_ite (fun r => hasKey r "dotenv")]

theorem lineVar_server_header :
    lineVar "# Server Configuration" = Option.none := rfl

theorem lineVar_port : lineVar "PORT=3000" = some "PORT" := rfl

theorem lineVar_node_env :
    lineVar "NODE_ENV=development" = some "NODE_ENV" := rfl

theorem lineVar_blank : lineVar "" = Option.none := rfl

theorem lineVar_db_header :
    lineVar "# Database Configuration" = Option.none := rfl

theorem lineVar_mongodb_uri (name : String) :
    lineVar ("MONGODB_URI=mongodb://localhost:27017/" ++ name) =
      some "MONGODB_URI" := rfl

theorem lineVar_auth_header :
    lineVar "# Authentication" = Option.none := rfl

theorem lineVar_jwt_secret :
    lineVar "JWT_SECRET=your-secret-key" = some "JWT_SECRET" := rfl

theorem lineVar_jwt_expires :
    lineVar "JWT_EXPIRES_IN=1d" = some "JWT_EXPIRES_IN" := rfl

theorem lineVar_session_secret :
    lineVar "SESSION_SECRET=your-session-secret" =
      some "SESSION_SECRET" := rfl

theorem lineVar_oauth_header :
    lineVar "# OAuth Configuration" = Option.none := rfl

theorem lineVar_google_id :
    lineVar "GOOGLE_CLIENT_ID=your-google-client-id" =
      some "GOOGLE_CLIENT_ID" := rfl

theorem lineVar_google_secret :
    lineVar "GOOGLE_CLIENT_SECRET=your-google-client-secret" =
      some "GOOGLE_CLIENT_SECRET" := rfl

theorem lineVar_github_id :
    lineVar "GITHUB_CLIENT_ID=your-github-client-id" =
      some "GITHUB_CLIENT_ID" := rfl

theorem lineVar_github_secret :
    lineVar "GITHUB_CLIENT_SECRET=your-github-client-secret" =
      some "GITHUB_CLIENT_SECRET" := rfl

/-! ## Concrete configurations used as witnesses and counterexamples -/

/-- A consistent TypeScript + MongoDB + mongoose configuration with all
optional features off. -/
def tsMongoConfig : ProjectOptions :=
  { name := "demo"
    language := Language.typescript
    framework := Framework.express
    database := Database.mongodb
    orm := ORM.mongoose
    features := []
    validationLibrary := Option.none
    authStrategy := Option.none }

/-- A consistent JavaScript + MongoDB + mongoose configuration. -/
def jsMongoConfig : ProjectOptions :=
  { name := "demo"
    language := Language.javascript
    framework := Framework.express
    database := Database.mongodb
    orm := ORM.mongoose
    features := []
    validationLibrary := Option.none
    authStrategy := Option.none }

/-- An inconsistent configuration: `database = none` paired with
`orm = mongoose`. -/
def noneMongooseConfig : ProjectOptions :=
  { name := "demo"
    language := Language.typescript
    framework := Framework.express
    database := Database.none
    orm := ORM.mongoose
    features := []
    validationLibrary := Option.none
    authStrategy := Option.none }

/-- A consistent configuration with `database = none` and session-based
authentication. -/
def sessionNoDbConfig : ProjectOptions :=
  { name := "demo"
    language := Language.typescript
    framework := Framework.express
    database := Database.none
    orm := ORM.none
    features := [Feature.auth]
    validationLibrary := Option.none
    authStrategy := some AuthStrategy.session }

/-- A consistent configuration with `database = none` and no features. -/
def noneConfig : ProjectOptions :=
  { name := "demo"
    language := Language.typescript
    framework := Framework.express
    database := Database.none
    orm := ORM.none
    features := []
    validationLibrary := Option.none
    authStrategy := Option.none }

/-- A consistent configuration with OAuth authentication on MongoDB. -/
def oauthMongoConfig : ProjectOptions :=
  { name := "demo"
    language := Language.typescript
    framework := Framework.express
    database := Database.mongodb
    orm := ORM.mongoose
    features := [Feature.auth]
    validationLibrary := Option.none
    authStrategy := some AuthStrategy.oauth }

/-! ## Claim theorems -/

/-- Claim C1: for every configuration satisfying the consistency predicate
of §3, the dependency resolver (`getDependencies`/`getDevDependencies`) is
a total function (it is defined, without error, on every such
configuration), its runtime dependency manifest is non-empty, and two
calls with the same configuration return equal manifests. -/
theorem claim_C1_resolver_total_nonempty_deterministic
    (c : ProjectOptions) (h : isConsistent c) :
    getDependencies c ≠ [] ∧
    ∀ c', c' = c →
      getDependencies c' = getDependencies c ∧
      getDevDependencies c' = getDevDependencies c := by
  refine ⟨ne_nil_of_hasKey _ _ (hasKey_getDependencies_dotenv c), ?_⟩
  intro c' hc
  rw [hc]
  exact ⟨rfl, rfl⟩

/-- Witness for C1 at a concrete consistent configuration. -/
theorem claim_C1_witness :
    isConsistent tsMongoConfig ∧
    (getDependencies tsMongoConfig ≠ [] ∧
      ∀ c', c' = tsMongoConfig →
        getDependencies c' = getDependencies tsMongoConfig ∧
        getDevDependencies c' = getDevDependencies tsMongoConfig) :=
  ⟨by decide,
   claim_C1_resolver_total_nonempty_deterministic tsMongoConfig (by decide)⟩

/-- Claim C2 counterexample: at the inconsistent configuration
`database = none` with `orm = mongoose`, the dependency resolver raises no
error: it returns a manifest — one that even contains `mongoose` — and the
file-content synthesizer (`copyTemplateFiles`) likewise returns a
non-empty file set, contradicting the claim that both raise an error
instead of returning output. -/
theorem claim_C2_counterexample :
    ¬ isConsistent noneMongooseConfig ∧
    getDependencies noneMongooseConfig ≠ [] ∧
    hasKey (getDependencies noneMongooseConfig) "mongoose" = true ∧
    copyTemplateFiles noneMongooseConfig ≠ [] := by
  refine ⟨by decide, by decide, by decide, ?_⟩
  simp [copyTemplateFiles]

/-- Claim C2 (amended): for every configuration violating the consistency
predicate, the dependency resolver and the file-content synthesizer raise
no error: both are total and return non-empty output, processing each
field by the same branches as for consistent configurations. -/
theorem claim_C2_amended_no_error_on_inconsistent
    (c : ProjectOptions) (h : ¬ isConsistent c) :
    getDependencies c ≠ [] ∧ copyTemplateFiles c ≠ [] := by
  refine ⟨ne_nil_of_hasKey _ _ (hasKey_getDependencies_dotenv c), ?_⟩
  simp [copyTemplateFiles]

/-- Witness for the amended C2 at a concrete inconsistent configuration. -/
theorem claim_C2_amended_witness :
    ¬ isConsistent noneMongooseConfig ∧
    (getDependencies noneMongooseConfig ≠ [] ∧
      copyTemplateFiles noneMongooseConfig ≠ []) :=
  ⟨by decide,
   claim_C2_amended_no_error_on_inconsistent noneMongooseConfig (by decide)⟩

/-- Claim C5 counterexample: at a consistent configuration with
`language = javascript`, the resolver's runtime manifest contains the
type-definition package `@types/node`, contradicting the claim that for
javascript the base set contains no type-definition packages. -/
theorem claim_C5_counterexample :
    isConsistent jsMongoConfig ∧
    jsMongoConfig.language = Language.javascript ∧
    hasKey (getDependencies jsMongoConfig) "@types/node" = true :=
  ⟨by decide, rfl, by decide⟩

/-- Claim C5 (amended): the resolver's fixed base dependency set contains
the type-definition package `@types/node` for every consistent
configuration, including those with `language = javascript` — it is not
conditioned on the language. -/
theorem claim_C5_amended_types_node_always (c : ProjectOptions)
    (h : isConsistent c) (hjs : c.language = Language.javascript) :
    hasKey (getDependencies c) "@types/node" = true := by
  obtain ⟨name, lang, fw, db, orm, feats, vlib, astrat⟩ := c
  cases fw
  simp only [getDependencies]
  simp [hasKey_recordSet, hasKey_setAll, hasKey_cons, hasKey_nil,
    apply_ite (fun r => hasKey r "@types/node")]

/-- Witness for the amended C5 at a concrete javascript configuration. -/
theorem claim_C5_amended_witness :
    isConsistent jsMongoConfig ∧
    jsMongoConfig.language = Language.javascript ∧
    hasKey (getDependencies jsMongoConfig) "@types/node" = true :=
  ⟨by decide, rfl,
   claim_C5_amended_types_node_always jsMongoConfig (by decide) rfl⟩

/-- Claim C6 counterexample: at the consistent configuration
`database = none`, `auth ∈ features`, `authStrategy = session`, the
runtime manifest contains the MongoDB-specific session-store package
`connect-mongo`, contradicting the claim that the session-store adapter
matches the selected database. -/
theorem claim_C6_counterexample :
    isConsistent sessionNoDbConfig ∧
    sessionNoDbConfig.database = Database.none ∧
    sessionNoDbConfig.authStrategy = some AuthStrategy.session ∧
    hasKey (getDependencies sessionNoDbConfig) "connect-mongo" = true :=
  ⟨by decide, rfl, rfl, by decide⟩

/-- Claim C6 (amended): for every consistent configuration with
`auth ∈ features` and `authStrategy = session`, the resolver adds the
MongoDB-specific session-store package `connect-mongo` unconditionally,
regardless of the selected database. -/
theorem claim_C6_amended_connect_mongo_always (c : ProjectOptions)
    (h : isConsistent c)
    (hauth : c.features.contains Feature.auth = true)
    (hs : c.authStrategy = some AuthStrategy.session) :
    hasKey (getDependencies c) "connect-mongo" = true := by
  obtain ⟨name, lang, fw, db, orm, feats, vlib, astrat⟩ := c
  cases fw
  subst hs
  have hA : Feature.auth ∈ feats := by simpa using hauth
  simp only [getDependencies]
  simp [hA, hasKey_recordSet, hasKey_setAll, hasKey_cons, hasKey_nil,
    apply_ite (fun r => hasKey r "connect-mongo")]

/-- Witness for the amended C6 at a concrete session configuration. -/
theorem claim_C6_amended_witness :
    isConsistent sessionNoDbConfig ∧
    sessionNoDbConfig.features.contains Feature.auth = true ∧
    sessionNoDbConfig.authStrategy = some AuthStrategy.session ∧
    hasKey (getDependencies sessionNoDbConfig) "connect-mongo" = true :=
  ⟨by decide, rfl, rfl,
   claim_C6_amended_connect_mongo_always sessionNoDbConfig
     (by decide) rfl rfl⟩

/-- Claim C4 counterexample: at a consistent configuration with
`language = javascript`, the generated file set still contains
`tsconfig.json` (`copyTemplateFiles` writes it unconditionally),
contradicting the claim that a tsconfig is present iff
`language = typescript`. -/
theorem claim_C4_counterexample :
    isConsistent jsMongoConfig ∧
    jsMongoConfig.language = Language.javascript ∧
    "tsconfig.json" ∈ ((generateProject jsMongoConfig).2.map Prod.fst) := by
  refine ⟨by decide, rfl, ?_⟩
  simp [generateProject, copyTemplateFiles]

/-- Claim C4 (amended): for every consistent configuration the generated
file set contains `tsconfig.json`, regardless of language — the write is
not conditioned on `language = typescript`. -/
theorem claim_C4_amended_tsconfig_always (c : ProjectOptions)
    (h : isConsistent c) :
    "tsconfig.json" ∈ ((generateProject c).2.map Prod.fst) := by
  simp [generateProject, copyTemplateFiles]

/-- Witness for the amended C4 at a concrete javascript configuration. -/
theorem claim_C4_amended_witness :
    isConsistent jsMongoConfig ∧
    "tsconfig.json" ∈ ((generateProject jsMongoConfig).2.map Prod.fst) :=
  ⟨by decide, claim_C4_amended_tsconfig_always jsMongoConfig (by decide)⟩

/-- Claim C8: for every consistent configuration with
`language = typescript`, the generated manifest's `dev` script invokes
`ts-node-dev`, while `ts-node-dev` appears in neither the runtime nor the
development dependency manifest; the development manifest contains
`ts-node` and `nodemon` instead. -/
theorem claim_C8_ts_dev_script (c : ProjectOptions) (h : isConsistent c)
    (hts : c.language = Language.typescript) :
    (generatePackageJson c).scripts.dev =
      "ts-node-dev --respawn --transpile-only src/index.ts" ∧
    hasKey (getDependencies c) "ts-node-dev" = false ∧
    hasKey (getDevDependencies c) "ts-node-dev" = false ∧
    hasKey (getDevDependencies c) "ts-node" = true ∧
    hasKey (getDevDependencies c) "nodemon" = true := by
  obtain ⟨name, lang, fw, db, orm, feats, vlib, astrat⟩ := c
  cases fw
  subst hts
  refine ⟨by simp [generatePackageJson], ?_, ?_, ?_, ?_⟩
  · simp only [getDependencies]
    simp [hasKey_recordSet, hasKey_setAll, hasKey_cons, hasKey_nil,
      apply_ite (fun r => hasKey r "ts-node-dev")]
  · simp only [getDevDependencies]
    simp [hasKey_recordSet, hasKey_setAll, hasKey_cons, hasKey_nil,
      apply_ite (fun r => hasKey r "ts-node-dev")]
  · simp only [getDevDependencies]
    simp [hasKey_recordSet, hasKey_setAll, hasKey_cons, hasKey_nil,
      apply_ite (fun r => hasKey r "ts-node")]
  · simp only [getDevDependencies]
    simp [hasKey_recordSet, hasKey_setAll, hasKey_cons, hasKey_nil,
      apply_ite (fun r => hasKey r "nodemon")]

/-- Witness for C8 at a concrete typescript configuration. -/
theorem claim_C8_witness :
    isConsistent tsMongoConfig ∧
    ((generatePackageJson tsMongoConfig).scripts.dev =
        "ts-node-dev --respawn --transpile-only src/index.ts" ∧
      hasKey (getDependencies tsMongoConfig) "ts-node-dev" = false ∧
      hasKey (getDevDependencies tsMongoConfig) "ts-node-dev" = false ∧
      hasKey (getDevDependencies tsMongoConfig) "ts-node" = true ∧
      hasKey (getDevDependencies tsMongoConfig) "nodemon" = true) :=
  ⟨by decide, claim_C8_ts_dev_script tsMongoConfig (by decide) rfl⟩

/-- Claim C3: for every consistent configuration, the generated
environment file defines exactly these variables: `PORT` and `NODE_ENV`
always; `MONGODB_URI` iff `database = mongodb`; `JWT_SECRET` and
`JWT_EXPIRES_IN` iff `auth ∈ features`; `SESSION_SECRET` iff
`authStrategy ∈ \x7bsession, oauth\x7d`; the four OAuth client id/secret
variables iff `authStrategy = oauth`. -/
theorem claim_C3_env_vars_exact (c : ProjectOptions) (h : isConsistent c) :
    definedVars (generateEnvFile c) = claimedEnvVars c := by
  obtain ⟨name, lang, fw, db, orm, feats, vlib, astrat⟩ := c
  simp only [isConsistent] at h
  obtain ⟨-, -, -, hAuth, -⟩ := h
  cases hA : feats.contains Feature.auth <;>
    cases db <;>
    rcases astrat with - | sa <;>
    try cases sa
  all_goals
    simp_all [generateEnvFile, claimedEnvVars, definedVars,
      List.filterMap_append, lineVar_server_header, lineVar_port,
      lineVar_node_env, lineVar_blank, lineVar_db_header,
      lineVar_mongodb_uri, lineVar_auth_header, lineVar_jwt_secret,
      lineVar_jwt_expires, lineVar_session_secret, lineVar_oauth_header,
      lineVar_google_id, lineVar_google_secret, lineVar_github_id,
      lineVar_github_secret]

/-- Witness for C3 at a concrete OAuth + MongoDB configuration. -/
theorem claim_C3_witness :
    isConsistent oauthMongoConfig ∧
    definedVars (generateEnvFile oauthMongoConfig) =
      claimedEnvVars oauthMongoConfig :=
  ⟨by decide, claim_C3_env_vars_exact oauthMongoConfig (by decide)⟩

/-- Claim C7: for every consistent configuration with `database = none`,
the generated file set contains no file under `src/models/`, the created
directory set contains neither `src/models` nor the ORM-named directory
`src/schemas`, and no model stub is written. -/
theorem claim_C7_no_models_when_db_none (c : ProjectOptions)
    (h : isConsistent c) (hdb : c.database = Database.none) :
    (∀ d ∈ generateProjectStructure c,
        d ≠ "src/models" ∧ d ≠ "src/schemas") ∧
    (∀ f ∈ (generateProject c).2,
        "src/models/".data.isPrefixOf f.1.data = false) ∧
    "src/models/example.model.ts" ∉ ((generateProject c).2.map Prod.fst) := by
  obtain ⟨name, lang, fw, db, orm, feats, vlib, astrat⟩ := c
  cases fw
  subst hdb
  refine ⟨?_, ?_, ?_⟩
  · cases hA : feats.contains Feature.auth <;>
      cases hT : feats.contains Feature.tests <;>
      simp_all [generateProjectStructure]
  · cases lang <;>
      simp [generateProject, copyTemplateFiles, generateBasicFiles,
        generateIndexFile, isDatabaseNone, isFrameworkExpress,
        List.forall_mem_cons] <;>
      decide
  · cases lang <;>
      simp [generateProject, copyTemplateFiles, generateBasicFiles,
        generateIndexFile, isDatabaseNone, isFrameworkExpress]

/-- Witness for C7 at a concrete `database = none` configuration. -/
theorem claim_C7_witness :
    isConsistent noneConfig ∧ noneConfig.database = Database.none ∧
    ((∀ d ∈ generateProjectStructure noneConfig,
        d ≠ "src/models" ∧ d ≠ "src/schemas") ∧
      (∀ f ∈ (generateProject noneConfig).2,
        "src/models/".data.isPrefixOf f.1.data = false) ∧
      "src/models/example.model.ts" ∉
        ((generateProject noneConfig).2.map Prod.fst)) :=
  ⟨by decide, rfl, claim_C7_no_models_when_db_none noneConfig (by decide) rfl⟩

/-- Claim C9: for every consistent configuration the controller stub, the
route stub and (when `database ≠ none`) the model stub are written with a
`.ts` extension — also when `language = javascript` — while the
entry-point source file's extension is keyed by the language. -/
theorem claim_C9_stub_extensions (c : ProjectOptions) (h : isConsistent c) :
    ((generateBasicFiles c).map Prod.fst =
        ["src/controllers/example.controller.ts",
         "src/routes/example.routes.ts"]
          ++ (if c.database = Database.none then []
              else ["src/models/example.model.ts"])) ∧
    (generateIndexFile c).1 =
      (if c.language = Language.typescript then "src/index.ts"
       else "src/index.js") := by
  obtain ⟨name, lang, fw, db, orm, feats, vlib, astrat⟩ := c
  cases fw
  cases db <;> cases orm <;> cases lang <;>
    simp [generateBasicFiles, generateIndexFile, isDatabaseNone,
      isORMMongoose, isFrameworkExpress]

/-- Witness for C9 at a concrete javascript configuration. -/
theorem claim_C9_witness :
    isConsistent jsMongoConfig ∧
    (((generateBasicFiles jsMongoConfig).map Prod.fst =
        ["src/controllers/example.controller.ts",
         "src/routes/example.routes.ts"]
          ++ (if jsMongoConfig.database = Database.none then []
              else ["src/models/example.model.ts"])) ∧
      (generateIndexFile jsMongoConfig).1 =
        (if jsMongoConfig.language = Language.typescript then "src/index.ts"
         else "src/index.js")) :=
  ⟨by decide, claim_C9_stub_extensions jsMongoConfig (by decide)⟩

/-- Claim C10: for every consistent configuration with
`database = mongodb`, the hardcoded fallback connection string in the
entry-point source's `mongoose.connect` call equals the `MONGODB_URI`
value written to the environment file, both being
`mongodb://localhost:27017/` followed by the project name. -/
theorem claim_C10_fallback_matches_env (c : ProjectOptions)
    (h : isConsistent c) (hdb : c.database = Database.mongodb) :
    ∃ url, url = "mongodb://localhost:27017/" ++ c.name ∧
      ("MONGODB_URI=" ++ url) ∈ generateEnvFile c ∧
      ∃ pre post,
        (generateIndexFile c).2 =
          pre ++ ("mongoose.connect(process.env.MONGODB_URI || \x27"
            ++ url ++ "\x27)") ++ post := by
  refine ⟨"mongodb://localhost:27017/" ++ c.name, rfl, ?_, ?_⟩
  · have hline :
        "MONGODB_URI=" ++ ("mongodb://localhost:27017/" ++ c.name) =
          "MONGODB_URI=mongodb://localhost:27017/" ++ c.name := by
      rw [← String.append_assoc]
      congr 1
    rw [hline]
    by_cases hA : Feature.auth ∈ c.features <;>
      rcases hS : c.authStrategy with - | sa <;>
      (try cases sa) <;>
      simp [generateEnvFile, hdb, hA, hS]
  · refine
      ⟨indexImportsHeader ++ indexMongooseImport c ++ "\n"
        ++ indexPassportImport c ++ "\n" ++ indexSessionImport c ++ "\n"
        ++ indexMongoStoreImport c ++ indexAppSetup ++ "\n",
       "\n  .then(() => console.log(\x27Connected to MongoDB\x27))\n  .catch(err => console.error(\x27MongoDB connection error:\x27, err));\n"
        ++ indexMiddleware ++ indexAuthBlock c ++ "\n\n"
        ++ indexSwaggerBlock c
            (if c.language = Language.typescript then ".ts" else ".js")
        ++ indexRoutesAndListen c
            (if c.language = Language.typescript then ": any" else ""),
       ?_⟩
    simp only [generateIndexFile, indexMongoConnect, hdb, ↓reduceIte,
      decide_eq_true_eq, String.append_assoc]

/-- Witness for C10 at a concrete MongoDB configuration. -/
theorem claim_C10_witness :
    isConsistent tsMongoConfig ∧
    tsMongoConfig.database = Database.mongodb ∧
    (∃ url, url = "mongodb://localhost:27017/" ++ tsMongoConfig.name ∧
      ("MONGODB_URI=" ++ url) ∈ generateEnvFile tsMongoConfig ∧
      ∃ pre post,
        (generateIndexFile tsMongoConfig).2 =
          pre ++ ("mongoose.connect(process.env.MONGODB_URI || \x27"
            ++ url ++ "\x27)") ++ post) :=
  ⟨by decide, rfl,
   claim_C10_fallback_matches_env tsMongoConfig (by decide) rfl⟩

end RestGenerate
